import Mathlib

/-!
Verification of the resilient HTTP access layer and the layered cache of the
soccer-scout repository: `ResilientHTTPClient` (src/utils/http_client.py) and
`InMemoryCache` / `SmartCache` (src/utils/cache_service.py).

The embedding is shallow and executable:
* wall-clock instants and durations are rationals (`ℚ`); every operation that
  reads `time.time()` in the source takes the current instant as an explicit
  argument;
* one call of `requests.Session.get` is the primitive "network attempt"; its
  outcome at each attempt index is supplied by an oracle
  `ℕ → AttemptOutcome` (the urllib3 transport adapter configured in
  `__init__` is connection-pool plumbing outside this repository);
* the jitter drawn by `random.uniform(0, base)` at each attempt index is
  supplied by an oracle `ℕ → ℚ`;
* `time.sleep` is modelled by recording the computed duration in a trace;
* exceptions are modelled by `Except`.
-/

namespace SoccerScout

/-- Outcome of one primitive network attempt (`self.session.get`): either an
HTTP response with a status code and the raw `Retry-After` header — `none` for
a missing or empty header, `some none` for a present header that does not parse
as a float, `some (some q)` for one that parses to `q` — or a
`requests.Timeout`, or a `requests.ConnectionError`. -/
inductive AttemptOutcome where
  | response (status : ℕ) (retryAfter : Option (Option ℚ))
  | timeout
  | connectionError
deriving DecidableEq

/-- Errors a `get` call can raise: the circuit-breaker rejection of line 129,
an `HTTPError` from `raise_for_status`, a re-raised `requests.Timeout` or
`requests.ConnectionError`, or the `RuntimeError` fallback of line 195. -/
inductive GetError where
  | circuitOpenError
  | httpError (status : ℕ)
  | timeoutError
  | connectionFailed
  | runtimeError
deriving DecidableEq

instance : DecidableEq (Except GetError ℕ) := fun a b =>
  match a, b with
  | Except.ok x, Except.ok y =>
    decidable_of_iff (x = y) (by simp)
  | Except.ok _, Except.error _ => isFalse (fun h => Except.noConfusion h)
  | Except.error _, Except.ok _ => isFalse (fun h => Except.noConfusion h)
  | Except.error x, Except.error y =>
    decidable_of_iff (x = y) (by simp)

/-- State of a `ResilientHTTPClient` instance: the constructor parameters and
the mutable circuit-breaker and telemetry attributes set in `__init__`
(http_client.py lines 27-50).  The `requests.Session` and its urllib3 retry
adapter (lines 52-65) are transport plumbing external to the modelled logic. -/
structure ResilientHTTPClient where
  default_timeout_seconds : ℚ
  max_retries : ℕ
  backoff_base_seconds : ℚ
  backoff_cap_seconds : ℚ
  circuit_breaker_threshold : ℕ
  consecutive_failures : ℕ
  circuit_open : Bool
  last_failure_time : ℚ
  circuit_reset_timeout : ℚ
  request_count : ℕ
  error_count : ℕ
  rate_limit_count : ℕ
deriving DecidableEq

namespace ResilientHTTPClient

/-- The client produced by `__init__` with all defaults (lines 27-50). -/
def defaultClient : ResilientHTTPClient where
  default_timeout_seconds := 10
  max_retries := 5
  backoff_base_seconds := 1/2
  backoff_cap_seconds := 8
  circuit_breaker_threshold := 5
  consecutive_failures := 0
  circuit_open := false
  last_failure_time := 0
  circuit_reset_timeout := 60
  request_count := 0
  error_count := 0
  rate_limit_count := 0

/-- `_is_circuit_open` (lines 67-79): returns whether the breaker blocks the
call, together with the possibly mutated state (the lazy reset of lines
73-77 sets `circuit_open = False` and `consecutive_failures = 0`). -/
def is_circuit_open (s : ResilientHTTPClient) (now : ℚ) :
    Bool × ResilientHTTPClient :=
  if s.circuit_open = false then (false, s)
  else if s.circuit_reset_timeout < now - s.last_failure_time then
    (false, { s with circuit_open := false, consecutive_failures := 0 })
  else (true, s)

/-- `_record_failure` (lines 81-89): bump the failure counters, stamp
`last_failure_time`, and open the breaker once the threshold is reached. -/
def record_failure (s : ResilientHTTPClient) (now : ℚ) : ResilientHTTPClient :=
  let s1 := { s with
    consecutive_failures := s.consecutive_failures + 1,
    error_count := s.error_count + 1,
    last_failure_time := now }
  if s1.circuit_breaker_threshold ≤ s1.consecutive_failures then
    { s1 with circuit_open := true }
  else s1

/-- `_record_success` (lines 91-96): reset the consecutive-failure counter and
close the breaker. -/
def record_success (s : ResilientHTTPClient) : ResilientHTTPClient :=
  { s with consecutive_failures := 0, circuit_open := false }

/-- Duration slept by `_sleep_with_backoff` (lines 98-116): a parsable
`Retry-After` header wins with `min(header, cap)`; a missing (or empty, hence
falsy) or unparsable header falls back to
`min(base * 2^attempt, cap) + jitter` where `jitter = uniform(0, base)`. -/
def sleep_with_backoff (base cap : ℚ) (attempt_index : ℕ)
    (retry_after_header : Option (Option ℚ)) (jitter : ℚ) : ℚ :=
  match retry_after_header with
  | some (some sleep_seconds) => min sleep_seconds cap
  | _ => min (base * 2 ^ attempt_index) cap + jitter

/-- Result of one iteration of the retry loop of `get` (lines 136-190):
either the call finishes (a `return` or an uncaught `raise`) with a result and
a final state, or the iteration did `continue` after sleeping the recorded
duration. -/
inductive StepResult where
  | done (res : Except GetError ℕ) (s : ResilientHTTPClient)
  | again (s : ResilientHTTPClient) (slept : ℚ)

/-- The body of one iteration of the retry loop (lines 137-190), at attempt
index `attempt`, for network outcome `outcome` and jitter draw `jitter`.
`raise_for_status` raises an `HTTPError` exactly when `400 ≤ status < 600`;
`HTTPError` is a `requests.RequestException`, so a status raised inside the
`try` block is caught by the handler of line 183, which retries while
attempts remain and otherwise records a failure and re-raises. -/
def attemptStep (s : ResilientHTTPClient) (now : ℚ) (attempt : ℕ)
    (outcome : AttemptOutcome) (jitter : ℚ) : StepResult :=
  match outcome with
  | AttemptOutcome.timeout =>
    if attempt < s.max_retries then
      StepResult.again s
        (sleep_with_backoff s.backoff_base_seconds s.backoff_cap_seconds attempt none jitter)
    else
      StepResult.done (Except.error GetError.timeoutError) (record_failure s now)
  | AttemptOutcome.connectionError =>
    if attempt < s.max_retries then
      StepResult.again s
        (sleep_with_backoff s.backoff_base_seconds s.backoff_cap_seconds attempt none jitter)
    else
      StepResult.done (Except.error GetError.connectionFailed) (record_failure s now)
  | AttemptOutcome.response status retryAfter =>
    -- lines 147-149: 2xx success
    if 200 ≤ status ∧ status < 300 then
      StepResult.done (Except.ok status) (record_success s)
    else
      -- lines 152-156: rate limiting
      let s1 := if status = 429 then
        { s with rate_limit_count := s.rate_limit_count + 1 } else s
      if status = 429 ∧ attempt < s1.max_retries then
        StepResult.again s1
          (sleep_with_backoff s1.backoff_base_seconds s1.backoff_cap_seconds attempt retryAfter jitter)
      -- lines 159-162: listed server errors
      else if (status = 500 ∨ status = 502 ∨ status = 503 ∨ status = 504) ∧
          attempt < s1.max_retries then
        StepResult.again s1
          (sleep_with_backoff s1.backoff_base_seconds s1.backoff_cap_seconds attempt none jitter)
      -- lines 165-168: client errors; raise_for_status always raises here and
      -- the HTTPError lands in the RequestException handler of line 183
      else if 400 ≤ status ∧ status < 500 then
        let s2 := record_failure s1 now
        if attempt < s2.max_retries then
          StepResult.again s2
            (sleep_with_backoff s2.backoff_base_seconds s2.backoff_cap_seconds attempt none jitter)
        else
          StepResult.done (Except.error (GetError.httpError status)) (record_failure s2 now)
      -- lines 171-172: raise_for_status raises only for 4xx/5xx; a raised
      -- HTTPError again lands in the handler of line 183
      else if 400 ≤ status ∧ status < 600 then
        if attempt < s1.max_retries then
          StepResult.again s1
            (sleep_with_backoff s1.backoff_base_seconds s1.backoff_cap_seconds attempt none jitter)
        else
          StepResult.done (Except.error (GetError.httpError status)) (record_failure s1 now)
      else
        StepResult.done (Except.ok status) s1

/-- Trace of a whole `get` call: its result, the final client state, how many
network attempts were made, and the list of sleep durations, in order. -/
structure GetResult where
  result : Except GetError ℕ
  state : ResilientHTTPClient
  attempts : ℕ
  sleeps : List ℚ

/-- The retry loop `for attempt in range(max_retries + 1)` (lines 136-195),
with the remaining iteration count as fuel.  The fuel-exhausted case mirrors
lines 192-195 (record a failure, raise the `RuntimeError` fallback); it is
unreachable from `get` because the body always finishes on the last index. -/
def getLoop (oracle : ℕ → AttemptOutcome) (jitters : ℕ → ℚ) (now : ℚ) :
    ℕ → ℕ → ResilientHTTPClient → GetResult
  | _, 0, s => ⟨Except.error GetError.runtimeError, record_failure s now, 0, []⟩
  | attempt, fuel + 1, s =>
    match attemptStep s now attempt (oracle attempt) (jitters attempt) with
    | StepResult.done res s1 => ⟨res, s1, 1, []⟩
    | StepResult.again s1 slept =>
      let r := getLoop oracle jitters now (attempt + 1) fuel s1
      ⟨r.result, r.state, r.attempts + 1, slept :: r.sleeps⟩

/-- `get` (lines 118-195): check the circuit breaker, count the request, then
run the retry loop.  `oracle i` is the outcome of the network attempt with
index `i`; `jitters i` is the jitter drawn before the sleep after attempt `i`. -/
def get (s : ResilientHTTPClient) (now : ℚ) (oracle : ℕ → AttemptOutcome)
    (jitters : ℕ → ℚ) : GetResult :=
  let c := is_circuit_open s now
  if c.1 then ⟨Except.error GetError.circuitOpenError, c.2, 0, []⟩
  else
    let s1 := { c.2 with request_count := c.2.request_count + 1 }
    getLoop oracle jitters now 0 (s1.max_retries + 1) s1

end ResilientHTTPClient

/-- One cache entry, as stored by `InMemoryCache.set`
(cache_service.py lines 61-65). -/
structure CacheEntry (α : Type) where
  value : α
  expires_at : ℚ
  created_at : ℚ
deriving DecidableEq

/-- State of an `InMemoryCache` instance (cache_service.py lines 16-25): the
`_cache` dict is modelled by an association list whose keys are unique by
construction (`set` replaces any previous binding).  The `threading.RLock`
serialises the operations; the embedding applies them sequentially. -/
structure InMemoryCache (α : Type) where
  default_ttl_seconds : ℚ
  cache : List (String × CacheEntry α)
  hits : ℕ
  misses : ℕ
  sets : ℕ
  evictions : ℕ

namespace InMemoryCache

/-- Dict lookup `self._cache.get(key)`. -/
def lookupEntry (l : List (String × CacheEntry α)) (k : String) :
    Option (CacheEntry α) :=
  (l.find? (fun p => p.1 == k)).map Prod.snd

/-- `_is_expired` (lines 27-29): true when `time.time()` exceeds the
`expires_at` field of the entry. -/
def is_expired (now : ℚ) (e : CacheEntry α) : Bool :=
  decide (e.expires_at < now)

/-- `_cleanup_expired` (lines 31-40): drop every expired entry and count one
eviction per dropped key. -/
def cleanup_expired (now : ℚ) (s : InMemoryCache α) : InMemoryCache α :=
  { s with
    cache := s.cache.filter (fun p => ! is_expired now p.2),
    evictions := s.evictions + (s.cache.filter (fun p => is_expired now p.2)).length }

/-- `get` (lines 42-53): sweep, then look the key up; a missing or expired
entry is a miss returning `None`, otherwise a hit returning the value. -/
def get (now : ℚ) (key : String) (s : InMemoryCache α) :
    Option α × InMemoryCache α :=
  let s1 := cleanup_expired now s
  match lookupEntry s1.cache key with
  | none => (none, { s1 with misses := s1.misses + 1 })
  | some entry =>
    if is_expired now entry then (none, { s1 with misses := s1.misses + 1 })
    else (some entry.value, { s1 with hits := s1.hits + 1 })

/-- The TTL chosen on line 57, `ttl_seconds or self.default_ttl_seconds`:
Python `or` falls through to the default when `ttl_seconds` is `None` or the
falsy number `0`. -/
def effectiveTtl (ttl_seconds : Option ℚ) (dflt : ℚ) : ℚ :=
  match ttl_seconds with
  | none => dflt
  | some t => if t = 0 then dflt else t

/-- `set` (lines 55-66): store the value under `key` with
`expires_at = now + ttl`, replacing any previous binding, and count the set. -/
def set (now : ℚ) (key : String) (value : α) (ttl_seconds : Option ℚ)
    (s : InMemoryCache α) : InMemoryCache α :=
  let ttl := effectiveTtl ttl_seconds s.default_ttl_seconds
  { s with
    cache := (key, ⟨value, now + ttl, now⟩) :: s.cache.filter (fun p => ! (p.1 == key)),
    sets := s.sets + 1 }

/-- `delete` (lines 68-74): remove the binding if present, reporting whether
one was removed; the telemetry counters are untouched. -/
def delete (key : String) (s : InMemoryCache α) : Bool × InMemoryCache α :=
  if (s.cache.find? (fun p => p.1 == key)).isSome then
    (true, { s with cache := s.cache.filter (fun p => ! (p.1 == key)) })
  else (false, s)

end InMemoryCache

/-- `SmartCache` (cache_service.py lines 97-162): five independent
`InMemoryCache` instances.  The value type is abstract. -/
structure SmartCache (α : Type) where
  player_cache : InMemoryCache α
  stats_cache : InMemoryCache α
  market_cache : InMemoryCache α
  league_cache : InMemoryCache α
  search_cache : InMemoryCache α

namespace SmartCache

/-- `_make_key` (lines 108-111) joins the namespace tag and the arguments
with colons, as in `player:7`, and hashes the joined string with md5.  The
md5 hex digest is a fixed deterministic function of this
string computed by the external `hashlib` library; the embedding uses the
pre-image string itself as the key, which preserves everything the claims
depend on (each namespace entry is addressed by one deterministic key). -/
def make_key (ns : String) (args : List String) : String :=
  ns ++ ":" ++ String.intercalate ":" args

/-- The `SmartCache` constructor (lines 100-106): five empty caches with the
per-namespace default TTLs. -/
def init (α : Type) : SmartCache α where
  player_cache := ⟨1800, [], 0, 0, 0, 0⟩
  stats_cache := ⟨3600, [], 0, 0, 0, 0⟩
  market_cache := ⟨7200, [], 0, 0, 0, 0⟩
  league_cache := ⟨86400, [], 0, 0, 0, 0⟩
  search_cache := ⟨900, [], 0, 0, 0, 0⟩

/-- `invalidate_player` (lines 148-152): delete the player-namespace entry
for the id; the commented-out cascade to related stats is not performed. -/
def invalidate_player (player_id : ℤ) (s : SmartCache α) : SmartCache α :=
  { s with
    player_cache :=
      (InMemoryCache.delete (make_key "player" [toString player_id]) s.player_cache).2 }

end SmartCache

/-! ## Helper lemmas -/

namespace ResilientHTTPClient

@[simp] lemma record_failure_consecutive (s : ResilientHTTPClient) (now : ℚ) :
    (record_failure s now).consecutive_failures = s.consecutive_failures + 1 := by
  simp only [record_failure]; split_ifs <;> rfl

@[simp] lemma record_failure_error_count (s : ResilientHTTPClient) (now : ℚ) :
    (record_failure s now).error_count = s.error_count + 1 := by
  simp only [record_failure]; split_ifs <;> rfl

@[simp] lemma record_failure_last_failure_time (s : ResilientHTTPClient) (now : ℚ) :
    (record_failure s now).last_failure_time = now := by
  simp only [record_failure]; split_ifs <;> rfl

@[simp] lemma record_failure_max_retries (s : ResilientHTTPClient) (now : ℚ) :
    (record_failure s now).max_retries = s.max_retries := by
  simp only [record_failure]; split_ifs <;> rfl

@[simp] lemma record_failure_reset_timeout (s : ResilientHTTPClient) (now : ℚ) :
    (record_failure s now).circuit_reset_timeout = s.circuit_reset_timeout := by
  simp only [record_failure]; split_ifs <;> rfl

lemma record_failure_opens (s : ResilientHTTPClient) (now : ℚ)
    (h : s.circuit_breaker_threshold ≤ s.consecutive_failures + 1) :
    (record_failure s now).circuit_open = true := by
  simp only [record_failure]
  rw [if_pos (by simpa using h)]

lemma getLoop_all_503 (oracle : ℕ → AttemptOutcome) (jitters : ℕ → ℚ) (now : ℚ)
    (h503 : ∀ i, ∃ r, oracle i = AttemptOutcome.response 503 r) :
    ∀ fuel attempt (s : ResilientHTTPClient),
      attempt + fuel = s.max_retries + 1 → 0 < fuel →
      (getLoop oracle jitters now attempt fuel s).attempts = fuel ∧
      (getLoop oracle jitters now attempt fuel s).result =
        Except.error (GetError.httpError 503) := by
  intro fuel
  induction fuel with
  | zero => intro attempt s _ h0; exact absurd h0 (by omega)
  | succ n ih =>
    intro attempt s hinv _
    obtain ⟨r, hr⟩ := h503 attempt
    by_cases hlt : attempt < s.max_retries
    · have hstep :
          attemptStep s now attempt (oracle attempt) (jitters attempt) =
            StepResult.again s
              (sleep_with_backoff s.backoff_base_seconds s.backoff_cap_seconds
                attempt none (jitters attempt)) := by
        rw [hr]
        simp [attemptStep, hlt]
      have hn : 0 < n := by omega
      have := ih (attempt + 1) s (by omega) hn
      simp [getLoop, hstep, this.1, this.2]
    · have hstep :
          attemptStep s now attempt (oracle attempt) (jitters attempt) =
            StepResult.done (Except.error (GetError.httpError 503))
              (record_failure s now) := by
        rw [hr]
        simp [attemptStep, hlt]
      have hn0 : n = 0 := by omega
      subst hn0
      simp [getLoop, hstep]

lemma getLoop_attempts_pos (oracle : ℕ → AttemptOutcome) (jitters : ℕ → ℚ)
    (now : ℚ) (attempt n : ℕ) (s : ResilientHTTPClient) :
    1 ≤ (getLoop oracle jitters now attempt (n + 1) s).attempts := by
  rcases hstep : attemptStep s now attempt (oracle attempt) (jitters attempt) with
    _ | _ <;> simp [getLoop, hstep]

lemma attemptStep_done_not_circuitOpen (s : ResilientHTTPClient) (now : ℚ)
    (attempt : ℕ) (o : AttemptOutcome) (jitter : ℚ) (res : Except GetError ℕ)
    (s1 : ResilientHTTPClient)
    (h : attemptStep s now attempt o jitter = StepResult.done res s1) :
    res ≠ Except.error GetError.circuitOpenError := by
  intro hres
  subst hres
  rcases o with ⟨status, ra⟩ | _ | _ <;>
    simp only [attemptStep] at h <;>
    split_ifs at h <;>
    simp at h

lemma getLoop_result_not_circuitOpen (oracle : ℕ → AttemptOutcome)
    (jitters : ℕ → ℚ) (now : ℚ) :
    ∀ fuel attempt (s : ResilientHTTPClient),
      (getLoop oracle jitters now attempt fuel s).result ≠
        Except.error GetError.circuitOpenError := by
  intro fuel
  induction fuel with
  | zero => intro attempt s; simp [getLoop]
  | succ n ih =>
    intro attempt s
    cases hstep : attemptStep s now attempt (oracle attempt) (jitters attempt) with
    | done res s1 =>
      simp only [getLoop, hstep]
      exact attemptStep_done_not_circuitOpen s now attempt _ _ res s1 hstep
    | again s1 d =>
      simp only [getLoop, hstep]
      exact ih (attempt + 1) s1

end ResilientHTTPClient

namespace InMemoryCache

lemma find?_filter_ne {α : Type} (l : List (String × CacheEntry α)) (k K : String)
    (hk : k ≠ K) :
    (l.filter (fun p => ! (p.1 == K))).find? (fun p => p.1 == k) =
      l.find? (fun p => p.1 == k) := by
  induction l with
  | nil => rfl
  | cons p t ih =>
    by_cases h1 : p.1 = K
    · have hfil : ((p :: t).filter (fun q => ! (q.1 == K))) =
          t.filter (fun q => ! (q.1 == K)) :=
        List.filter_cons_of_neg (by simp [h1])
      have hfind : ((p :: t).find? (fun q => q.1 == k)) =
          t.find? (fun q => q.1 == k) :=
        List.find?_cons_of_neg _ (by simp [h1]; exact Ne.symm hk)
      rw [hfil, ih, hfind]
    · have hfil : ((p :: t).filter (fun q => ! (q.1 == K))) =
          p :: t.filter (fun q => ! (q.1 == K)) :=
        List.filter_cons_of_pos (by simp [h1])
      by_cases h2 : p.1 = k
      · rw [hfil, List.find?_cons_of_pos _ (by simp [h2]),
          List.find?_cons_of_pos _ (by simp [h2])]
      · rw [hfil, List.find?_cons_of_neg _ (by simp [h2]), ih,
          List.find?_cons_of_neg _ (by simp [h2])]

lemma get_fst_live {α : Type} (c : InMemoryCache α) (key : String)
    (e : CacheEntry α) (l : List (String × CacheEntry α)) (now : ℚ)
    (hc : c.cache = (key, e) :: l) (hlive : ¬ (e.expires_at < now)) :
    (InMemoryCache.get now key c).1 = some e.value := by
  have hkeep : is_expired now e = false := by simp [is_expired, hlive]
  simp only [InMemoryCache.get, cleanup_expired, lookupEntry, hc]
  rw [List.filter_cons_of_pos (by simp [hkeep])]
  rw [List.find?_cons_of_pos _ (by simp)]
  simp [hkeep]

lemma get_fst_none {α : Type} (c : InMemoryCache α) (key : String) (now : ℚ)
    (h : ∀ p ∈ c.cache, p.1 = key → is_expired now p.2 = true) :
    (InMemoryCache.get now key c).1 = none := by
  have hnone : ((c.cache.filter (fun p => ! is_expired now p.2)).find?
      (fun p => p.1 == key)) = none := by
    rw [List.find?_eq_none]
    intro p hp
    obtain ⟨hpmem, hpkeep⟩ := List.mem_filter.mp hp
    intro hbeq
    have hpk : p.1 = key := by simpa using hbeq
    have := h p hpmem hpk
    simp [this] at hpkeep
  simp only [InMemoryCache.get, cleanup_expired, lookupEntry, hnone]
  simp

end InMemoryCache

/-! ## Claims -/

open ResilientHTTPClient InMemoryCache SmartCache

/-- C1: the claim says a GET whose every attempt yields 404, in the
closed-breaker state, makes exactly one network attempt with no retry and no
backoff sleep.  The code violates this: on a 404 the client records a failure
and calls `raise_for_status()` inside the `try` block; the raised `HTTPError`
is a `requests.RequestException`, so the handler of line 183 catches it and
retries with a backoff sleep while attempts remain.  With the default
configuration (`max_retries = 5`) an all-404 upstream gets 6 network
attempts, 5 backoff sleeps, and 7 recorded failures — contradicting the
comment the code itself carries on line 164, which reads: Client errors -
do not retry. -/
theorem C1_404_is_retried_despite_fatal_classification :
    (ResilientHTTPClient.get defaultClient 1000
      (fun _ => AttemptOutcome.response 404 none) (fun _ => 0)).attempts = 6 ∧
    (ResilientHTTPClient.get defaultClient 1000
      (fun _ => AttemptOutcome.response 404 none) (fun _ => 0)).sleeps.length = 5 ∧
    (ResilientHTTPClient.get defaultClient 1000
      (fun _ => AttemptOutcome.response 404 none) (fun _ => 0)).result =
        Except.error (GetError.httpError 404) ∧
    (ResilientHTTPClient.get defaultClient 1000
      (fun _ => AttemptOutcome.response 404 none) (fun _ => 0)).state.error_count = 7 := by
  decide

/-- C2: in the closed-breaker state, against an upstream whose every attempt
yields status 503, a GET makes exactly `max_retries + 1` network attempts and
then raises an error carrying the last observed cause (the `HTTPError` for
that 503), never more attempts, never fewer. -/
theorem C2_retry_ceiling (s : ResilientHTTPClient) (now : ℚ)
    (oracle : ℕ → AttemptOutcome) (jitters : ℕ → ℚ)
    (hclosed : s.circuit_open = false)
    (h503 : ∀ i, ∃ r, oracle i = AttemptOutcome.response 503 r) :
    (ResilientHTTPClient.get s now oracle jitters).attempts = s.max_retries + 1 ∧
    (ResilientHTTPClient.get s now oracle jitters).result =
      Except.error (GetError.httpError 503) := by
  have hopen : is_circuit_open s now = (false, s) := by
    simp [is_circuit_open, hclosed]
  simp only [ResilientHTTPClient.get, hopen]
  exact getLoop_all_503 oracle jitters now h503 (s.max_retries + 1) 0 _ (by simp) (by omega)

/-- Witness for C2 at the default client, `max_retries = 5`. -/
theorem C2_retry_ceiling_witness :
    (ResilientHTTPClient.get defaultClient 0
      (fun _ => AttemptOutcome.response 503 none) (fun _ => 0)).attempts =
        defaultClient.max_retries + 1 ∧
    (ResilientHTTPClient.get defaultClient 0
      (fun _ => AttemptOutcome.response 503 none) (fun _ => 0)).result =
      Except.error (GetError.httpError 503) :=
  C2_retry_ceiling defaultClient 0 _ _ rfl (fun _ => ⟨none, rfl⟩)

/-- C4: on a retry preceded by a 429 carrying a parsable Retry-After hint of
`n` seconds with `n` below the backoff cap, the computed sleep duration is
exactly `n` (that is, `min n cap`), not the exponential formula; with a
missing or unparsable hint the sleep falls back to the
exponential-backoff-with-jitter formula. -/
theorem C4_retry_after_honored (s : ResilientHTTPClient) (now : ℚ)
    (attempt : ℕ) (n jitter : ℚ) (h : Option (Option ℚ))
    (hlt : attempt < s.max_retries) (hn : n < s.backoff_cap_seconds)
    (hh : h = none ∨ h = some none) :
    attemptStep s now attempt (AttemptOutcome.response 429 (some (some n))) jitter =
      StepResult.again { s with rate_limit_count := s.rate_limit_count + 1 } n ∧
    attemptStep s now attempt (AttemptOutcome.response 429 h) jitter =
      StepResult.again { s with rate_limit_count := s.rate_limit_count + 1 }
        (min (s.backoff_base_seconds * 2 ^ attempt) s.backoff_cap_seconds + jitter) := by
  constructor
  · simp [attemptStep, hlt, sleep_with_backoff, min_eq_left hn.le]
  · rcases hh with rfl | rfl <;> simp [attemptStep, hlt, sleep_with_backoff]

/-- Witness for C4 at the default client: hint 3 s with cap 8 s sleeps 3 s;
a missing header falls back to the exponential formula. -/
theorem C4_retry_after_honored_witness :
    attemptStep defaultClient 0 0 (AttemptOutcome.response 429 (some (some 3))) 0 =
      StepResult.again
        { defaultClient with rate_limit_count := defaultClient.rate_limit_count + 1 } 3 ∧
    attemptStep defaultClient 0 0 (AttemptOutcome.response 429 none) 0 =
      StepResult.again
        { defaultClient with rate_limit_count := defaultClient.rate_limit_count + 1 }
        (min (defaultClient.backoff_base_seconds * 2 ^ 0) defaultClient.backoff_cap_seconds + 0) :=
  C4_retry_after_honored defaultClient 0 0 3 0 none (by norm_num [defaultClient])
    (by norm_num [defaultClient]) (Or.inl rfl)

/-- C5: after a failure recording pushes `consecutive_failures` to the
circuit-breaker threshold, every GET issued while less than
`circuit_reset_timeout` seconds have elapsed since `last_failure_time` returns
the circuit-open error with zero network attempts, no sleeps, and an unchanged
client state (so every later call within the window behaves identically). -/
theorem C5_open_circuit_blocks_calls (s : ResilientHTTPClient) (t now : ℚ)
    (oracle : ℕ → AttemptOutcome) (jitters : ℕ → ℚ)
    (hth : s.circuit_breaker_threshold ≤ s.consecutive_failures + 1)
    (hwin : now - t < s.circuit_reset_timeout) :
    ResilientHTTPClient.get (record_failure s t) now oracle jitters =
      ⟨Except.error GetError.circuitOpenError, record_failure s t, 0, []⟩ := by
  have hopen := record_failure_opens s t hth
  have hnot : ¬ ((record_failure s t).circuit_reset_timeout <
      now - (record_failure s t).last_failure_time) := by
    rw [record_failure_reset_timeout, record_failure_last_failure_time]
    linarith
  have hblock : is_circuit_open (record_failure s t) now = (true, record_failure s t) := by
    simp [is_circuit_open, hopen, hnot]
    linarith
  simp [ResilientHTTPClient.get, hblock]

/-- Witness for C5: one failure past the threshold at time 0, call at time 10
inside the 60 s window. -/
theorem C5_open_circuit_blocks_calls_witness :
    ResilientHTTPClient.get
        (record_failure { defaultClient with consecutive_failures := 4 } 0) 10
        (fun _ => AttemptOutcome.response 200 none) (fun _ => 0) =
      ⟨Except.error GetError.circuitOpenError,
        record_failure { defaultClient with consecutive_failures := 4 } 0, 0, []⟩ :=
  C5_open_circuit_blocks_calls { defaultClient with consecutive_failures := 4 } 0 10
    _ _ (by norm_num [defaultClient]) (by norm_num [defaultClient])

/-- C6: when the breaker is open and more than `circuit_reset_timeout`
seconds have elapsed since `last_failure_time`, the breaker check itself
closes the breaker and zeroes `consecutive_failures`, and the GET call is let
through: it makes at least one network attempt and never returns the
circuit-open error, whatever the attempt outcomes are.  The reset happens
only inside this call-path check (`_is_circuit_open`); the embedding has no
other transition that closes the breaker besides `_record_success`. -/
theorem C6_lazy_reset_on_call (s : ResilientHTTPClient) (now : ℚ)
    (oracle : ℕ → AttemptOutcome) (jitters : ℕ → ℚ)
    (hopen : s.circuit_open = true)
    (helap : s.circuit_reset_timeout < now - s.last_failure_time) :
    is_circuit_open s now =
      (false, { s with circuit_open := false, consecutive_failures := 0 }) ∧
    1 ≤ (ResilientHTTPClient.get s now oracle jitters).attempts ∧
    (ResilientHTTPClient.get s now oracle jitters).result ≠
      Except.error GetError.circuitOpenError := by
  have hcheck : is_circuit_open s now =
      (false, { s with circuit_open := false, consecutive_failures := 0 }) := by
    simp [is_circuit_open, hopen, helap]
  refine ⟨hcheck, ?_, ?_⟩
  · simp only [ResilientHTTPClient.get, hcheck]
    exact getLoop_attempts_pos oracle jitters now 0 _ _
  · simp only [ResilientHTTPClient.get, hcheck]
    exact getLoop_result_not_circuitOpen oracle jitters now _ 0 _

/-- Witness for C6: breaker opened at time 0, call at time 100 > 60 s window. -/
theorem C6_lazy_reset_on_call_witness :
    is_circuit_open { defaultClient with circuit_open := true } 100 =
      (false, { { defaultClient with circuit_open := true } with
        circuit_open := false, consecutive_failures := 0 }) ∧
    1 ≤ (ResilientHTTPClient.get { defaultClient with circuit_open := true } 100
      (fun _ => AttemptOutcome.response 200 none) (fun _ => 0)).attempts ∧
    (ResilientHTTPClient.get { defaultClient with circuit_open := true } 100
      (fun _ => AttemptOutcome.response 200 none) (fun _ => 0)).result ≠
      Except.error GetError.circuitOpenError :=
  C6_lazy_reset_on_call { defaultClient with circuit_open := true } 100 _ _ rfl
    (by norm_num [defaultClient])

/-- C7: every duration computed by the backoff routine — any attempt index,
any Retry-After header — is at most `backoff_cap_seconds +
backoff_base_seconds`, the cap plus the maximum jitter, provided the base is
nonnegative and the jitter lies in the `uniform(0, base)` range. -/
theorem C7_sleep_duration_bounded (base cap : ℚ) (attempt_index : ℕ)
    (h : Option (Option ℚ)) (jitter : ℚ)
    (hb : 0 ≤ base) (_hj0 : 0 ≤ jitter) (hjb : jitter ≤ base) :
    sleep_with_backoff base cap attempt_index h jitter ≤ cap + base := by
  have hmin := min_le_right (base * 2 ^ attempt_index) cap
  rcases h with _ | hh
  · simp only [sleep_with_backoff]
    linarith
  · rcases hh with _ | n
    · simp only [sleep_with_backoff]
      linarith
    · simp only [sleep_with_backoff]
      have := min_le_right n cap
      linarith

/-- Witness for C7 at the default parameters with jitter 1/4. -/
theorem C7_sleep_duration_bounded_witness :
    sleep_with_backoff (1/2) 8 0 none (1/4) ≤ 8 + 1/2 :=
  C7_sleep_duration_bounded (1/2) 8 0 none (1/4) (by norm_num) (by norm_num)
    (by norm_num)

/-- C10: when the final allowed attempt (index `max_retries`) receives a 4xx
response — a worn-out 429 included — the failure-recording routine runs twice
for that attempt: once in the client-error branch and once more in the
`RequestException` handler that catches the `HTTPError` raised by
`raise_for_status`, so `consecutive_failures` and `error_count` grow by 2,
not 1, relative to the state entering that attempt. -/
theorem C10_final_4xx_double_records (s : ResilientHTTPClient) (now : ℚ)
    (status : ℕ) (ra : Option (Option ℚ)) (jitter : ℚ)
    (h4 : 400 ≤ status) (h5 : status < 500) :
    ∃ s2,
      attemptStep s now s.max_retries (AttemptOutcome.response status ra) jitter =
        StepResult.done (Except.error (GetError.httpError status)) s2 ∧
      s2.consecutive_failures = s.consecutive_failures + 2 ∧
      s2.error_count = s.error_count + 2 := by
  have h2xx : ¬ (200 ≤ status ∧ status < 300) := by omega
  by_cases h429 : status = 429
  · subst h429
    refine ⟨record_failure (record_failure
      { s with rate_limit_count := s.rate_limit_count + 1 } now) now, ?_, ?_, ?_⟩
    · simp [attemptStep]
    · simp
    · simp
  · have h5xx : ¬ (status = 500 ∨ status = 502 ∨ status = 503 ∨ status = 504) := by
      omega
    refine ⟨record_failure (record_failure s now) now, ?_, ?_, ?_⟩
    · simp [attemptStep, h2xx, h429, h5xx, h4, h5]
    · simp
    · simp

/-- Witness for C10 at the default client with a 404 on the final attempt. -/
theorem C10_final_4xx_double_records_witness :
    ∃ s2,
      attemptStep defaultClient 0 defaultClient.max_retries
          (AttemptOutcome.response 404 none) 0 =
        StepResult.done (Except.error (GetError.httpError 404)) s2 ∧
      s2.consecutive_failures = defaultClient.consecutive_failures + 2 ∧
      s2.error_count = defaultClient.error_count + 2 :=
  C10_final_4xx_double_records defaultClient 0 404 none 0 (by norm_num)
    (by norm_num)

/-- C3: a key stored by `set` at time `tset` carries
`expires_at = tset + ttl`; `get(key)` returns the stored value whenever
`now ≤ expires_at` and returns `none` whenever `now > expires_at`,
independently of whether an explicit expiry sweep (`_cleanup_expired`) ran at
some intermediate time between the set and the get. -/
theorem C3_ttl_correct (α : Type) (s : InMemoryCache α) (key : String) (v : α)
    (ttlArg : Option ℚ) (tset tmid now : ℚ) (sweep : Bool)
    (hmid : tmid ≤ now) :
    (InMemoryCache.get now key
        ((if sweep then cleanup_expired tmid else id)
          (InMemoryCache.set tset key v ttlArg s))).1 =
      (if now ≤ tset + effectiveTtl ttlArg s.default_ttl_seconds then some v
        else none) := by
  have hrestk : ∀ p ∈ s.cache.filter (fun p => ! (p.1 == key)),
      (p.1 == key) = false := by
    intro p hp
    simpa using (List.mem_filter.mp hp).2
  by_cases hnow : now ≤ tset + effectiveTtl ttlArg s.default_ttl_seconds
  · rw [if_pos hnow]
    cases sweep with
    | false =>
      have hc : ((if false then cleanup_expired tmid else id)
            (InMemoryCache.set tset key v ttlArg s)).cache =
          (key, ⟨v, tset + effectiveTtl ttlArg s.default_ttl_seconds, tset⟩) ::
            s.cache.filter (fun p => ! (p.1 == key)) := rfl
      exact get_fst_live _ key _ _ now hc (not_lt.mpr hnow)
    | true =>
      have hc : ((if true then cleanup_expired tmid else id)
            (InMemoryCache.set tset key v ttlArg s)).cache =
          (key, ⟨v, tset + effectiveTtl ttlArg s.default_ttl_seconds, tset⟩) ::
            ((s.cache.filter (fun p => ! (p.1 == key))).filter
              (fun p => ! is_expired tmid p.2)) := by
        simp only [if_true, cleanup_expired, InMemoryCache.set]
        rw [List.filter_cons_of_pos (by simp [is_expired]; linarith)]
      exact get_fst_live _ key _ _ now hc (not_lt.mpr hnow)
  · rw [if_neg hnow]
    apply get_fst_none
    intro p hp hpk
    have hp1 : p ∈ (key, (⟨v, tset + effectiveTtl ttlArg s.default_ttl_seconds,
        tset⟩ : CacheEntry α)) :: s.cache.filter (fun p => ! (p.1 == key)) := by
      cases sweep with
      | false => exact hp
      | true =>
        have := List.mem_filter.mp hp
        exact this.1
    rcases List.mem_cons.mp hp1 with heq | hmem
    · rw [heq]
      simp only [is_expired]
      simp only [decide_eq_true_eq]
      linarith
    · exact absurd (by simpa using hpk) (by simpa using hrestk p hmem)

/-- Witness for C3: set at time 0 with the default TTL, sweep at time 1, get
at time 2. -/
theorem C3_ttl_correct_witness :
    (InMemoryCache.get 2 "k"
        ((if true then cleanup_expired 1 else id)
          (InMemoryCache.set 0 "k" (7 : ℕ) none (⟨1800, [], 0, 0, 0, 0⟩ : InMemoryCache ℕ)))).1 =
      (if (2 : ℚ) ≤ 0 + effectiveTtl none (⟨1800, [], 0, 0, 0, 0⟩ : InMemoryCache ℕ).default_ttl_seconds
        then some 7 else none) :=
  C3_ttl_correct ℕ ⟨1800, [], 0, 0, 0, 0⟩ "k" 7 none 0 1 2 true (by norm_num)

/-- C8: `invalidate_player` removes at most the single player-namespace entry
derived from the id: the stats, market, league and search caches are left
completely unchanged, all telemetry counters and the default TTL of the
player cache are unchanged, and every player-cache key other than the derived
one still looks up to the same entry. -/
theorem C8_invalidate_player_frame (α : Type) (s : SmartCache α)
    (player_id : ℤ) (k : String)
    (hk : k ≠ make_key "player" [toString player_id]) :
    (invalidate_player player_id s).stats_cache = s.stats_cache ∧
    (invalidate_player player_id s).market_cache = s.market_cache ∧
    (invalidate_player player_id s).league_cache = s.league_cache ∧
    (invalidate_player player_id s).search_cache = s.search_cache ∧
    (invalidate_player player_id s).player_cache.hits = s.player_cache.hits ∧
    (invalidate_player player_id s).player_cache.misses = s.player_cache.misses ∧
    (invalidate_player player_id s).player_cache.sets = s.player_cache.sets ∧
    (invalidate_player player_id s).player_cache.evictions =
      s.player_cache.evictions ∧
    (invalidate_player player_id s).player_cache.default_ttl_seconds =
      s.player_cache.default_ttl_seconds ∧
    lookupEntry (invalidate_player player_id s).player_cache.cache k =
      lookupEntry s.player_cache.cache k := by
  unfold invalidate_player InMemoryCache.delete
  split_ifs with hfound
  · refine ⟨rfl, rfl, rfl, rfl, rfl, rfl, rfl, rfl, rfl, ?_⟩
    unfold lookupEntry
    rw [find?_filter_ne _ _ _ hk]
  · exact ⟨rfl, rfl, rfl, rfl, rfl, rfl, rfl, rfl, rfl, rfl⟩

/-- Witness for C8 on the freshly constructed `SmartCache` and an unrelated
key. -/
theorem C8_invalidate_player_frame_witness :
    (invalidate_player 7 (SmartCache.init ℕ)).stats_cache =
      (SmartCache.init ℕ).stats_cache ∧
    (invalidate_player 7 (SmartCache.init ℕ)).market_cache =
      (SmartCache.init ℕ).market_cache ∧
    (invalidate_player 7 (SmartCache.init ℕ)).league_cache =
      (SmartCache.init ℕ).league_cache ∧
    (invalidate_player 7 (SmartCache.init ℕ)).search_cache =
      (SmartCache.init ℕ).search_cache ∧
    (invalidate_player 7 (SmartCache.init ℕ)).player_cache.hits =
      (SmartCache.init ℕ).player_cache.hits ∧
    (invalidate_player 7 (SmartCache.init ℕ)).player_cache.misses =
      (SmartCache.init ℕ).player_cache.misses ∧
    (invalidate_player 7 (SmartCache.init ℕ)).player_cache.sets =
      (SmartCache.init ℕ).player_cache.sets ∧
    (invalidate_player 7 (SmartCache.init ℕ)).player_cache.evictions =
      (SmartCache.init ℕ).player_cache.evictions ∧
    (invalidate_player 7 (SmartCache.init ℕ)).player_cache.default_ttl_seconds =
      (SmartCache.init ℕ).player_cache.default_ttl_seconds ∧
    lookupEntry (invalidate_player 7 (SmartCache.init ℕ)).player_cache.cache "x" =
      lookupEntry (SmartCache.init ℕ).player_cache.cache "x" :=
  C8_invalidate_player_frame ℕ (SmartCache.init ℕ) 7 "x" (by decide)

/-- C9: `set(key, value, ttl_seconds = 0)` does not store an
immediately-expired entry: `ttl_seconds or self.default_ttl_seconds` treats
the falsy 0 as absent, the entry is stored with the namespace default TTL
(`expires_at = t + default_ttl_seconds`), and a `get(key)` at the same
instant returns the value. -/
theorem C9_zero_ttl_falls_back_to_default (α : Type) (s : InMemoryCache α)
    (key : String) (v : α) (t : ℚ) (hd : 0 ≤ s.default_ttl_seconds) :
    lookupEntry (InMemoryCache.set t key v (some 0) s).cache key =
      some ⟨v, t + s.default_ttl_seconds, t⟩ ∧
    (InMemoryCache.get t key (InMemoryCache.set t key v (some 0) s)).1 =
      some v := by
  have heff : effectiveTtl (some 0) s.default_ttl_seconds =
      s.default_ttl_seconds := by
    simp [effectiveTtl]
  constructor
  · simp only [InMemoryCache.set, lookupEntry, heff]
    rw [List.find?_cons_of_pos _ (by simp)]
    rfl
  · refine get_fst_live _ key ⟨v, t + effectiveTtl (some 0) s.default_ttl_seconds, t⟩
      _ t rfl ?_
    refine not_lt.mpr ?_
    show t ≤ t + effectiveTtl (some 0) s.default_ttl_seconds
    rw [heff]
    linarith

/-- Witness for C9 on an empty cache with default TTL 1800 s. -/
theorem C9_zero_ttl_falls_back_to_default_witness :
    lookupEntry (InMemoryCache.set 5 "k" (9 : ℕ) (some 0)
        (⟨1800, [], 0, 0, 0, 0⟩ : InMemoryCache ℕ)).cache "k" =
      some ⟨9, 5 + (1800 : ℚ), 5⟩ ∧
    (InMemoryCache.get 5 "k" (InMemoryCache.set 5 "k" (9 : ℕ) (some 0)
        (⟨1800, [], 0, 0, 0, 0⟩ : InMemoryCache ℕ))).1 = some 9 :=
  C9_zero_ttl_falls_back_to_default ℕ ⟨1800, [], 0, 0, 0, 0⟩ "k" 9 5
    (by norm_num)

end SoccerScout
